import Mathlib

/-!
Verification of the gus user/credential engine (src/users.go).

The Go code is shallowly embedded: the relational store is a record of lists
of rows, every operation is a pure function from a store state (plus the
inputs the code obtains from the outside world: the clock, uuid draws,
generated tokens) to a result and a new store state.  Timestamps are epoch
milliseconds modelled as Nat; the int64 configuration values and int64 SQL
counts are modelled as Int.  External libraries that are not part of this
repository (bcrypt, govalidator, the random generator, the SQL collation of
the backing store) are modelled from the spec and marked as such in their
doc comments.
-/

namespace Gus

/-- The domain error values declared in src/users.go (ErrEmailTaken,
ErrUsernameTaken, ..., RateLimitExceededError, NotFoundError, ErrNotAuth,
ErrTokenExpired). -/
inductive GusError where
  | emailTaken
  | usernameTaken
  | emailInvalid
  | emailRequired
  | proofOfOwnershipRequired
  | newPasswordRequired
  | passwordInvalid
  | invalidResetToken
  | tokenExpired
  | notAuth
  | rateLimitExceeded
  | notFound
  deriving DecidableEq, Repr

/-- ASCII lower-casing of one character, the relevant fragment of Go
strings.ToLower for identifiers built from ASCII letters. -/
def lowerChar (c : Char) : Char :=
  if 'A' ≤ c ∧ c ≤ 'Z' then Char.ofNat (c.toNat + 32) else c

/-- Case-insensitive string equality, as computed by the
strings.ToLower comparisons in Users.exists (src/users.go lines 166-171). -/
def strCiEq (a b : String) : Bool :=
  a.data.map lowerChar == b.data.map lowerChar

/-- Modelled from the spec: the Credential Hasher (spec 4.1).  The code calls
the external bcrypt library, which is not part of this repository; the model
is a deterministic digest such that verification succeeds exactly on the
password the digest was produced from. -/
def hashPassword (password : String) : String :=
  "bcrypt12$" ++ password

/-- Modelled from the spec: bcrypt.CompareHashAndPassword succeeds iff the
digest was produced from the password (spec 4.1 verify). -/
def verifyPassword (digest password : String) : Bool :=
  digest == hashPassword password

/-- One character is an ASCII upper-case letter. -/
def isUpperChar (c : Char) : Bool :=
  decide ('A' ≤ c ∧ c ≤ 'Z')

/-- One character is an ASCII lower-case letter. -/
def isLowerChar (c : Char) : Bool :=
  decide ('a' ≤ c ∧ c ≤ 'z')

/-- One character is an ASCII digit. -/
def isDigitChar (c : Char) : Bool :=
  decide ('0' ≤ c ∧ c ≤ '9')

/-- One character is special: neither a letter nor a digit. -/
def isSpecialChar (c : Char) : Bool :=
  !(isUpperChar c || isLowerChar c || isDigitChar c)

/-- Modelled from the spec: ValidatePassword, called by
ChangePasswordParams.Validate (src/users.go line 635) but defined outside
src/users.go.  Spec 4.5 step 3: accept iff (at least one upper, one lower,
one digit, one special, length at least 8) or (length at least 15, any
composition). -/
def ValidatePassword (s : String) : Bool :=
  (decide (s.data.length ≥ 8) && s.data.any isUpperChar && s.data.any isLowerChar
    && s.data.any isDigitChar && s.data.any isSpecialChar)
  || decide (s.data.length ≥ 15)

/-- The UserOpts configuration structure (src/users.go lines 28-35).  The Go
PassGen function field is external randomness; only its presence matters to
the constructor, so it is modelled as Option Unit, and each operation that
draws from the generator instead receives the drawn string as an input. -/
structure UserOpts where
  authAttempts : Int
  authLockDuration : Int
  passGen : Option Unit
  usernameIsEmail : Option Bool
  resetTokenExpiry : Int
  deriving DecidableEq, Repr

/-- NewUsers (src/users.go lines 70-89): fills in defaults for the lock
duration, the reset-token expiry, the generator and the username policy.
It supplies no default for AuthAttempts. -/
def newUsers (opt : UserOpts) : UserOpts :=
  let o1 := if opt.authLockDuration = 0 then { opt with authLockDuration := 5 * 60 } else opt
  let o2 := if o1.resetTokenExpiry = 0 then { o1 with resetTokenExpiry := 24 * 60 * 60 * 1000 } else o1
  let o3 := if o2.passGen.isNone then { o2 with passGen := some () } else o2
  if o3.usernameIsEmail.isNone then { o3 with usernameIsEmail := some true } else o3

/-- One row of the users table (the columns written by Users.SignUp). -/
structure UserRow where
  id : Nat
  uid : String
  username : String
  email : String
  passwordHash : String
  firstName : String
  lastName : String
  phone : String
  orgId : Int
  created : Nat
  updated : Nat
  role : Int
  suspended : Bool
  passive : Bool
  deleted : Bool
  inviteCode : String
  deriving DecidableEq, Repr

/-- One row of the orgs table, as read by the sign-in lookup. -/
structure OrgRow where
  id : Int
  suspended : Bool
  deriving DecidableEq, Repr

/-- One row of the password_attempts table. -/
structure AttemptRow where
  username : String
  created : Nat
  deriving DecidableEq, Repr

/-- One row of the password_resets table. -/
structure ResetRow where
  userId : Nat
  email : String
  resetToken : String
  created : Nat
  deleted : Bool
  deriving DecidableEq, Repr

/-- The backing relational store.  nextId models LastInsertId assignment. -/
structure Db where
  users : List UserRow
  orgs : List OrgRow
  attempts : List AttemptRow
  resets : List ResetRow
  nextId : Nat
  deriving DecidableEq, Repr

/-- Which store operations of the attempt log fail during one call: covers
the prepare or exec failure of the INSERT and the failure of the COUNT read
in Users.isLocked (src/users.go lines 346-366). -/
structure StoreFaults where
  attemptInsertFails : Bool
  attemptCountFails : Bool
  deriving DecidableEq, Repr

/-- A healthy store: neither attempt-log operation fails. -/
def noFaults : StoreFaults :=
  { attemptInsertFails := false, attemptCountFails := false }

/-- The lower bound of the lockout window:
(time.Now().Unix() - AuthLockDuration) * 1000 (src/users.go line 358), with
Unix() modelled as the millisecond clock divided by 1000. -/
def attemptWindowStart (authLockDuration : Int) (now : Nat) : Int :=
  (((now / 1000 : Nat) : Int) - authLockDuration) * 1000

/-- SELECT COUNT(username) FROM password_attempts WHERE created > ? AND
username = ? (src/users.go line 359). -/
def countRecentAttempts (attempts : List AttemptRow) (username : String) (since : Int) : Nat :=
  (attempts.filter fun a => decide ((a.created : Int) > since) && a.username == username).length

/-- Users.isLocked (src/users.go lines 345-368): insert an attempt row for
the identifier at the current time, then count the attempts inside the
trailing window and compare with AuthAttempts.  A failing insert or a
failing count locks the identifier regardless (fail closed). -/
def isLocked (opt : UserOpts) (f : StoreFaults) (attempts : List AttemptRow)
    (username : String) (now : Nat) : Bool × List AttemptRow :=
  if f.attemptInsertFails then
    (true, attempts)
  else
    let attempts2 := attempts ++ [{ username := username, created := now }]
    if f.attemptCountFails then
      (true, attempts2)
    else
      let since := attemptWindowStart opt.authLockDuration now
      (decide ((countRecentAttempts attempts2 username since : Int) > opt.authAttempts), attempts2)

/-- The WHERE clause of the sign-in lookup (src/users.go line 265):
u.email = ? OR u.username = ? AND u.deleted = 0.  SQL precedence makes this
email-match OR (username-match AND not deleted); the deleted guard binds
only to the username branch. -/
def signInMatch (identifier : String) (u : UserRow) : Bool :=
  u.email == identifier || (u.username == identifier && !u.deleted)

/-- COALESCE(o.suspended, 0) over the left join with orgs. -/
def orgSuspendedFor (orgs : List OrgRow) (orgId : Int) : Bool :=
  match orgs.find? fun o => o.id == orgId with
  | none => false
  | some o => o.suspended

/-- Users.GetByUsername (src/users.go lines 264-286): the first row matching
the sign-in lookup, together with the org-derived suspension flag.  The spec
(4.5 step 3) describes this lookup as a case-sensitive match. -/
def getByUsername (users : List UserRow) (orgs : List OrgRow) (identifier : String) :
    Option (UserRow × Bool) :=
  match users.find? (signInMatch identifier) with
  | none => none
  | some u => some (u, orgSuspendedFor orgs u.orgId)

/-- SignInParams (src/users.go lines 288-293). -/
structure SignInParams where
  email : String
  username : String
  password : String
  deriving DecidableEq, Repr

/-- The identifier resolution at the top of Users.SignIn (src/users.go lines
309-316).  The Go code dereferences the UsernameIsEmail pointer, which the
constructor guarantees is non-nil; getD true models the constructor
default. -/
def resolveIdentifier (opt : UserOpts) (p : SignInParams) : String :=
  if p.email ≠ "" then
    let uname := if opt.usernameIsEmail.getD true then p.email else p.username
    if uname = "" then p.email else uname
  else p.username

/-- Users.SignIn (src/users.go lines 308-337).  Returns the authenticated
row with its org-suspension claim, or a domain error, plus the new store
state.  In the suspended-or-passive branch the Debug call at line 329
evaluates us.isLocked again, inserting a second attempt row. -/
def signIn (opt : UserOpts) (f : StoreFaults) (db : Db) (p : SignInParams) (now : Nat) :
    Except GusError (UserRow × Bool) × Db :=
  let uname := resolveIdentifier opt p
  let r1 := isLocked opt f db.attempts uname now
  let db1 := { db with attempts := r1.2 }
  if r1.1 then
    (.error .rateLimitExceeded, db1)
  else
    match getByUsername db1.users db1.orgs uname with
    | none => (.error .notAuth, db1)
    | some (u, orgSusp) =>
      if u.suspended || orgSusp || u.passive then
        let r2 := isLocked opt f db1.attempts uname now
        (.error .notAuth, { db1 with attempts := r2.2 })
      else if verifyPassword u.passwordHash p.password then
        (.ok (u, orgSusp), db1)
      else
        (.error .notAuth, db1)

/-- ExistsParams (src/users.go lines 129-132). -/
structure ExistsParams where
  email : String
  username : String
  deriving DecidableEq, Repr

/-- Modelled from the spec: the string collation of the backing store in the
uniqueness query of Users.exists.  The schema is not part of src/; spec 4.5
states the sign-up uniqueness check is case-insensitive, so SQL string
equality in this query is modelled as case-insensitive. -/
def sqlStrEq (a b : String) : Bool :=
  strCiEq a b

/-- The WHERE clause of the Users.exists query (src/users.go line 152):
deleted = 0 AND username = ? OR email = ?.  SQL precedence makes this
(not deleted AND username-match) OR email-match; the deleted guard binds
only to the username branch. -/
def existsMatch (p : ExistsParams) (u : UserRow) : Bool :=
  (!u.deleted && sqlStrEq u.username p.username) || sqlStrEq u.email p.email

/-- Users.exists (src/users.go lines 151-173): scan the first matching row,
then compare its email and username case-insensitively against the request.
The boolean result mirrors the Go (bool, error) pair. -/
def usersExists (users : List UserRow) (p : ExistsParams) : Bool × Option GusError :=
  match users.find? (existsMatch p) with
  | none => (false, none)
  | some u =>
    if strCiEq u.email p.email then (true, some .emailTaken)
    else if strCiEq u.username p.username then (true, some .usernameTaken)
    else (false, none)

/-- SignUpParams (src/users.go lines 105-117). -/
structure SignUpParams where
  username : String
  inviteCode : String
  password : String
  email : String
  firstName : String
  lastName : String
  phone : String
  orgId : Int
  role : Int
  passive : Bool
  deriving DecidableEq, Repr

/-- The external inputs one SignUp call draws: the clock, the uuid for the
account, the uuid used for the passive placeholder email, the generated
password (PassGen 128) and the reset token drawn if the activation reset
runs. -/
structure SignUpEnv where
  now : Nat
  uid : String
  emailUid : String
  genPassword : String
  genResetToken : String
  deriving DecidableEq, Repr

/-- Users.ResetPassword (src/users.go lines 580-609): look the account up by
the supplied identifier, reject passive accounts, then inside one
transaction revoke every reset row whose email column equals the supplied
identifier and insert a fresh token row carrying the account's stored
email.  freshToken is the PassGen(128) draw. -/
def resetPassword (db : Db) (email : String) (now : Nat) (freshToken : String) :
    Except GusError String × Db :=
  match getByUsername db.users db.orgs email with
  | none => (.error .notFound, db)
  | some (u, _) =>
    if u.passive then
      (.error .notAuth, db)
    else
      let revoked := db.resets.map fun r =>
        if r.email == email then { r with deleted := true } else r
      let inserted := revoked ++
        [{ userId := u.id, email := u.email, resetToken := freshToken,
           created := now, deleted := false }]
      (.ok freshToken, { db with resets := inserted })

/-- The insert-and-activate tail of Users.SignUp (src/users.go lines
202-252), taken after the uniqueness check and the username := email
rewrite: hash the effective password, insert the row, and for an account
without a caller-supplied password that is not passive run the reset
workflow for an activation token.  Factored out of signUp to state facts
about the inserted row. -/
def signUpInsert (db : Db) (p : SignUpParams) (env : SignUpEnv) :
    Except GusError (UserRow × String) × Db :=
  let givenPassword := !(p.password == "")
  let pw := if p.password == "" then env.genPassword else p.password
  let u : UserRow := {
    id := db.nextId, uid := env.uid, username := p.username, email := p.email,
    passwordHash := hashPassword pw, firstName := p.firstName, lastName := p.lastName,
    phone := p.phone, orgId := p.orgId, created := env.now, updated := env.now,
    role := p.role, suspended := false, passive := p.passive, deleted := false,
    inviteCode := p.inviteCode }
  let db1 := { db with users := db.users ++ [u], nextId := db.nextId + 1 }
  if givenPassword then
    (.ok (u, ""), db1)
  else if !p.passive then
    match resetPassword db1 p.email env.now env.genResetToken with
    | (.ok tok, db2) => (.ok (u, tok), db2)
    | (.error e, db2) => (.error e, db2)
  else
    (.ok (u, ""), db1)

/-- Users.SignUp (src/users.go lines 176-253).  Inside the transaction: the
uniqueness check with the request's username and email, then the rewrite
username := email when the policy is active or no username was supplied,
then the insert.  After commit, a non-passive account with a generated
password triggers the reset workflow for an activation token. -/
def signUp (opt : UserOpts) (db : Db) (p : SignUpParams) (env : SignUpEnv) :
    Except GusError (UserRow × String) × Db :=
  let p := if p.passive && (p.email == "") then
      { p with email := env.emailUid ++ "@passive-user.gus" } else p
  let ex := usersExists db.users { email := p.email, username := p.username }
  if ex.1 then
    (.error (ex.2.getD .notFound), db)
  else
    let p := if opt.usernameIsEmail.getD true || (p.username == "") then
        { p with username := p.email } else p
    signUpInsert db p env

/-- SELECT reset_token, created FROM password_resets WHERE email = ? AND
deleted = 0 ORDER BY created DESC LIMIT 1 (src/users.go lines 649-651):
an active row for the email with maximal created timestamp. -/
def mostRecentActiveReset (resets : List ResetRow) (email : String) : Option ResetRow :=
  (resets.filter fun r => r.email == email && !r.deleted).foldl
    (fun acc r =>
      match acc with
      | none => some r
      | some b => if r.created > b.created then some r else some b)
    none

/-- ChangePasswordParams (src/users.go lines 611-617). -/
structure ChangePasswordParams where
  email : String
  existingPassword : String
  newPassword : String
  resetToken : String
  deriving DecidableEq, Repr

/-- UPDATE users SET password_hash = ?, updated = ? WHERE email = ? AND
deleted = 0 (src/users.go line 678). -/
def updatePasswordByEmail (users : List UserRow) (email hash : String) (now : Nat) :
    List UserRow :=
  users.map fun u =>
    if u.email == email && !u.deleted then
      { u with passwordHash := hash, updated := now }
    else u

/-- Users.ChangePassword (src/users.go lines 641-685).  The existing-password
path re-uses SignIn with Username := p.Email.  The token path validates and
revokes the most recent active token inside a transaction; the credential
update then runs outside that transaction and its exec error is discarded
(line 683 assigns err, line 684 returns nil), so the call reports success
whether or not the UPDATE applied to any row. -/
def changePassword (opt : UserOpts) (f : StoreFaults) (db : Db) (p : ChangePasswordParams)
    (now : Nat) : Except GusError Unit × Db :=
  if p.existingPassword ≠ "" then
    match signIn opt f db { email := "", username := p.email, password := p.existingPassword } now with
    | (.error e, db1) => (.error e, db1)
    | (.ok _, db1) =>
      (.ok (), { db1 with
        users := updatePasswordByEmail db1.users p.email (hashPassword p.newPassword) now })
  else if p.resetToken ≠ "" then
    match mostRecentActiveReset db.resets p.email with
    | none => (.error .notFound, db)
    | some r =>
      if r.resetToken ≠ p.resetToken then
        (.error .invalidResetToken, db)
      else if decide ((now : Int) > (r.created : Int) + opt.resetTokenExpiry * 1000) then
        (.error .tokenExpired, db)
      else
        let db1 := { db with resets := db.resets.map fun (r2 : ResetRow) =>
          if r2.email == p.email then { r2 with deleted := true } else r2 }
        (.ok (), { db1 with
          users := updatePasswordByEmail db1.users p.email (hashPassword p.newPassword) now })
  else
    (.error .notAuth, db)

/-- ChangePasswordParams.Validate (src/users.go lines 619-639), with the
external govalidator.IsEmail supplied as a parameter (modelled from the
spec: Email validator, spec 6) and govalidator.IsNull as emptiness. -/
def changePasswordValidate (isEmail : String → Bool) (p : ChangePasswordParams) :
    Option GusError :=
  if p.email = "" then some .emailRequired
  else if !isEmail p.email then some .emailInvalid
  else if p.existingPassword = "" ∧ p.resetToken = "" then some .proofOfOwnershipRequired
  else if p.newPassword = "" then some .newPasswordRequired
  else if !ValidatePassword p.newPassword then some .passwordInvalid
  else none

/-- The change-password workflow of spec 4.5: parameter validation followed
by the engine call.  ChangePassword itself (src/users.go) does not invoke
Validate; the transport layer does, and the spec states the workflow as the
composition. -/
def changePasswordChecked (isEmail : String → Bool) (opt : UserOpts) (f : StoreFaults)
    (db : Db) (p : ChangePasswordParams) (now : Nat) : Except GusError Unit × Db :=
  match changePasswordValidate isEmail p with
  | some e => (.error e, db)
  | none => changePassword opt f db p now

/-- Case-insensitive pairwise distinctness of a list of strings. -/
def ciDistinct : List String → Bool
  | [] => true
  | x :: rest => rest.all (fun y => !(strCiEq x y)) && ciDistinct rest

/-- Case-insensitive pairwise distinctness of the named column over the
non-deleted rows: the uniqueness invariant of spec 3. -/
def ciUniqueColumn (col : UserRow → String) (users : List UserRow) : Bool :=
  ciDistinct ((users.filter fun u => !u.deleted).map col)

deriving instance DecidableEq for Except

/-- A user row with the fields the claims inspect; display fields empty. -/
def mkUser (id : Nat) (uname email hash : String) (deleted passive suspended : Bool) : UserRow where
  id := id
  uid := "uid"
  username := uname
  email := email
  passwordHash := hash
  firstName := ""
  lastName := ""
  phone := ""
  orgId := 0
  created := 0
  updated := 0
  role := 0
  suspended := suspended
  passive := passive
  deleted := deleted
  inviteCode := ""

/-- A store with the given users and reset rows and nothing else. -/
def mkDb (users : List UserRow) (resets : List ResetRow) : Db where
  users := users
  orgs := []
  attempts := []
  resets := resets
  nextId := 2

/-- A representative explicit configuration. -/
def optStd : UserOpts where
  authAttempts := 5
  authLockDuration := 300
  passGen := some ()
  usernameIsEmail := some true
  resetTokenExpiry := 86400

/-- The all-zero options record: every field left at its zero value. -/
def optZero : UserOpts where
  authAttempts := 0
  authLockDuration := 0
  passGen := none
  usernameIsEmail := none
  resetTokenExpiry := 0

/-- The concrete store of the C8 scenario: one healthy account whose
username and email differ. -/
def dbC8 : Db := mkDb [mkUser 1 "u@a.com" "e@b.com" (hashPassword "Oldpass1!") false false false] []

/-- Change-password request authenticating with the existing password via
the username. -/
def pC8 : ChangePasswordParams where
  email := "u@a.com"
  existingPassword := "Oldpass1!"
  newPassword := "Newpass1!"
  resetToken := ""

/-- The concrete store of the C9 scenario: a single soft-deleted account. -/
def dbC9 : Db := mkDb [mkUser 1 "ghost" "gone@x.com" (hashPassword "Pass1!aa") true false false] []

/-- C2: fail-closed rate limiting. If inserting the attempt record or
reading the attempt count fails, sign-in returns RateLimitExceeded rather
than a store error, for every configuration, store state, request and
time. -/
theorem signIn_fail_closed (opt : UserOpts) (f : StoreFaults) (db : Db) (p : SignInParams)
    (now : Nat) (h : f.attemptInsertFails = true ∨ f.attemptCountFails = true) :
    (signIn opt f db p now).1 = .error .rateLimitExceeded := by
  rcases h with h | h
  · simp [signIn, isLocked, h]
  · cases hi : f.attemptInsertFails <;> simp [signIn, isLocked, h, hi]

/-- C2 witness: a failing attempt-log insert on a healthy store surfaces as
RateLimitExceeded. -/
theorem signIn_fail_closed_witness :
    ({ attemptInsertFails := true, attemptCountFails := false } : StoreFaults).attemptInsertFails = true
    ∧ (signIn optStd { attemptInsertFails := true, attemptCountFails := false } (mkDb [] [])
        { email := "", username := "bob", password := "pw" } 0).1 = .error .rateLimitExceeded :=
  ⟨by decide, signIn_fail_closed optStd _ (mkDb [] []) _ 0 (Or.inl (by decide))⟩

/-- C8: Users.ChangePassword reports success without persisting the new
credential.  In this fault-free run the caller authenticates with the
existing password via the username; the UPDATE keyed on the email column
matches no row, its outcome is discarded (src/users.go lines 683-684 assign
the exec error and return nil), and the store still holds the old digest. -/
theorem changePassword_success_without_persist :
    (changePassword optStd noFaults dbC8 pC8 1000).1 = .ok ()
    ∧ (changePassword optStd noFaults dbC8 pC8 1000).2.users = dbC8.users
    ∧ dbC8.users = [mkUser 1 "u@a.com" "e@b.com" (hashPassword "Oldpass1!") false false false] := by
  decide

/-- C9: the sign-in lookup finds soft-deleted accounts through the email
branch.  In dbC9 every account is deleted, signInMatch accepts the deleted
row by email, and a full sign-in with the correct password succeeds. -/
theorem signIn_authenticates_deleted_account :
    (dbC9.users.all fun u => u.deleted) = true
    ∧ signInMatch "gone@x.com" (mkUser 1 "ghost" "gone@x.com" (hashPassword "Pass1!aa") true false false) = true
    ∧ (signIn optStd noFaults dbC9 { email := "", username := "gone@x.com", password := "Pass1!aa" } 0).1
        = .ok (mkUser 1 "ghost" "gone@x.com" (hashPassword "Pass1!aa") true false false, false) := by
  decide

/-- The fresh attempt row always lies inside the lockout window when the
lock duration is at least one second: now in milliseconds exceeds
(now div 1000 - duration) * 1000. -/
theorem self_attempt_in_window (now : Nat) (d : Int) (hd : 1 ≤ d) :
    attemptWindowStart d now < (now : Int) := by
  unfold attemptWindowStart
  have hfloor : ((now / 1000 : Nat) : Int) * 1000 ≤ (now : Int) := by
    exact_mod_cast Nat.div_mul_le_self now 1000
  nlinarith

/-- The count after the insert is at least one whenever the inserted row is
inside the window. -/
theorem countRecentAttempts_append_self (l : List AttemptRow) (u : String) (since : Int)
    (now : Nat) (h : since < (now : Int)) :
    1 ≤ countRecentAttempts (l ++ [{ username := u, created := now }]) u since := by
  unfold countRecentAttempts
  rw [List.filter_append]
  simp [h]

/-- isLocked always reports locked when the configured maximum attempts is
at most zero and the lock duration is at least one. -/
theorem isLocked_of_nonpos_attempts (opt : UserOpts) (f : StoreFaults) (l : List AttemptRow)
    (u : String) (now : Nat) (ha : opt.authAttempts ≤ 0) (hd : 1 ≤ opt.authLockDuration) :
    (isLocked opt f l u now).1 = true := by
  unfold isLocked
  cases hi : f.attemptInsertFails
  · cases hc : f.attemptCountFails
    · simp only [hi, hc, Bool.false_eq_true, if_false]
      apply decide_eq_true
      have h1 : 1 ≤ countRecentAttempts (l ++ [{ username := u, created := now }]) u
          (attemptWindowStart opt.authLockDuration now) :=
        countRecentAttempts_append_self l u _ now (self_attempt_in_window now _ hd)
      have h2 : (1 : Int) ≤ (countRecentAttempts (l ++ [{ username := u, created := now }]) u
          (attemptWindowStart opt.authLockDuration now) : Int) := by exact_mod_cast h1
      omega
    · simp [hi, hc]
  · simp [hi]

/-- C10: the constructor defaults the lock duration, the token expiry, the
generator and the username policy, but not the maximum-attempts option, and
the lock check counts the attempt it has just inserted; with the
maximum-attempts option left at its zero value, every sign-in attempt, for
every identifier, password, store state, fault pattern and time, fails with
RateLimitExceeded. -/
theorem newUsers_eq (o : UserOpts) :
    newUsers o = UserOpts.mk o.authAttempts
      (if o.authLockDuration = 0 then 5 * 60 else o.authLockDuration)
      (if o.passGen.isNone then some () else o.passGen)
      (if o.usernameIsEmail.isNone then some true else o.usernameIsEmail)
      (if o.resetTokenExpiry = 0 then 24 * 60 * 60 * 1000 else o.resetTokenExpiry) := by
  unfold newUsers
  by_cases c1 : o.authLockDuration = 0 <;> by_cases c2 : o.resetTokenExpiry = 0 <;>
    by_cases c3 : o.passGen.isNone = true <;> by_cases c4 : o.usernameIsEmail.isNone = true <;>
    simp [c1, c2, c3, c4]

theorem newUsers_zero_attempts_locks_out (o : UserOpts) (ha : o.authAttempts = 0)
    (hd : 0 ≤ o.authLockDuration) :
    (newUsers o).authAttempts = 0
    ∧ (o.authLockDuration = 0 → (newUsers o).authLockDuration = 300)
    ∧ (o.resetTokenExpiry = 0 → (newUsers o).resetTokenExpiry = 24 * 60 * 60 * 1000)
    ∧ (o.passGen = none → (newUsers o).passGen = some ())
    ∧ (o.usernameIsEmail = none → (newUsers o).usernameIsEmail = some true)
    ∧ ∀ (f : StoreFaults) (db : Db) (p : SignInParams) (now : Nat),
        (signIn (newUsers o) f db p now).1 = .error .rateLimitExceeded := by
  refine ⟨by rw [newUsers_eq]; exact ha, ?_, ?_, ?_, ?_, ?_⟩
  · intro h0
    rw [newUsers_eq]
    norm_num [h0]
  · intro h0
    rw [newUsers_eq]
    simp [h0]
  · intro h0
    rw [newUsers_eq]
    simp [h0]
  · intro h0
    rw [newUsers_eq]
    simp [h0]
  · intro f db p now
    have hd1 : 1 ≤ (newUsers o).authLockDuration := by
      rw [newUsers_eq]
      dsimp only
      split <;> omega
    have ha0 : (newUsers o).authAttempts ≤ 0 := by
      rw [newUsers_eq]
      dsimp only
      omega
    have hlocked := isLocked_of_nonpos_attempts (newUsers o) f db.attempts
      (resolveIdentifier (newUsers o) p) now ha0 hd1
    simp [signIn, hlocked]

/-- C10 witness: the all-zero configuration run through the constructor
rejects a concrete sign-in on an empty store with RateLimitExceeded, and the
constructor filled every default except the attempts maximum. -/
theorem newUsers_zero_attempts_locks_out_witness :
    optZero.authAttempts = 0
    ∧ (newUsers optZero).authAttempts = 0
    ∧ (newUsers optZero).authLockDuration = 300
    ∧ (newUsers optZero).resetTokenExpiry = 24 * 60 * 60 * 1000
    ∧ (newUsers optZero).passGen = some ()
    ∧ (newUsers optZero).usernameIsEmail = some true
    ∧ (signIn (newUsers optZero) noFaults (mkDb [] [])
        { email := "", username := "bob", password := "pw" } 0).1 = .error .rateLimitExceeded := by
  have h := newUsers_zero_attempts_locks_out optZero (by decide) (by decide)
  exact ⟨by decide, h.1, h.2.1 (by decide), h.2.2.1 (by decide), h.2.2.2.1 (by decide),
    h.2.2.2.2.1 (by decide), h.2.2.2.2.2 noFaults (mkDb [] []) _ 0⟩

/-- A configuration with a maximum of one attempt. -/
def optOne : UserOpts where
  authAttempts := 1
  authLockDuration := 300
  passGen := some ()
  usernameIsEmail := some true
  resetTokenExpiry := 86400

/-- An empty store already holding one fresh attempt for bob. -/
def dbOneAttempt : Db :=
  { users := [], orgs := [], attempts := [{ username := "bob", created := 500 }],
    resets := [], nextId := 1 }

/-- The resolved identifier does not depend on the password field. -/
theorem resolveIdentifier_password (opt : UserOpts) (p : SignInParams) (pw : String) :
    resolveIdentifier opt { p with password := pw } = resolveIdentifier opt p := rfl

/-- With a healthy store, isLocked appends exactly one attempt row and its
verdict is the window count compared against the attempts maximum. -/
theorem isLocked_noFaults (opt : UserOpts) (l : List AttemptRow) (u : String) (now : Nat) :
    isLocked opt noFaults l u now
      = (decide ((countRecentAttempts (l ++ [{ username := u, created := now }]) u
            (attemptWindowStart opt.authLockDuration now) : Int) > opt.authAttempts),
          l ++ [{ username := u, created := now }]) := by
  simp [isLocked, noFaults]

/-- C1: sliding-window lockout.  A sign-in for an identifier at time now
first appends the attempt row (identifier, now) to the log (first conjunct:
the final log extends the appended log; the suspended-account debug line
can append one more row).  If the count of attempts for the identifier with
timestamp inside the trailing window, taken after the append, exceeds the
configured maximum, sign-in returns RateLimitExceeded whatever password is
supplied, before any password comparison; if the count is at most the
maximum — enough old attempts have aged out of the window — the attempt is
not rate-limited. -/
theorem signIn_sliding_window (opt : UserOpts) (db : Db) (p : SignInParams) (now : Nat) :
    (∃ tail, (signIn opt noFaults db p now).2.attempts
        = (db.attempts ++ [{ username := resolveIdentifier opt p, created := now }]) ++ tail)
    ∧ ((countRecentAttempts
          (db.attempts ++ [{ username := resolveIdentifier opt p, created := now }])
          (resolveIdentifier opt p) (attemptWindowStart opt.authLockDuration now) : Int)
            > opt.authAttempts →
        ∀ pw, (signIn opt noFaults db { p with password := pw } now).1
          = .error .rateLimitExceeded)
    ∧ ((countRecentAttempts
          (db.attempts ++ [{ username := resolveIdentifier opt p, created := now }])
          (resolveIdentifier opt p) (attemptWindowStart opt.authLockDuration now) : Int)
            ≤ opt.authAttempts →
        (signIn opt noFaults db p now).1 ≠ .error .rateLimitExceeded) := by
  refine ⟨?_, ?_, ?_⟩
  · by_cases hdec : (countRecentAttempts
        (db.attempts ++ [{ username := resolveIdentifier opt p, created := now }])
        (resolveIdentifier opt p) (attemptWindowStart opt.authLockDuration now) : Int)
          > opt.authAttempts
    · refine ⟨[], ?_⟩
      simp [signIn, isLocked_noFaults, hdec]
    · cases hg : getByUsername db.users db.orgs (resolveIdentifier opt p) with
      | none =>
        refine ⟨[], ?_⟩
        simp [signIn, isLocked_noFaults, hdec, hg]
      | some v =>
        cases v with
        | mk u orgS =>
          by_cases hf : (u.suspended || orgS || u.passive) = true
          · refine ⟨[{ username := resolveIdentifier opt p, created := now }], ?_⟩
            simp [signIn, isLocked_noFaults, hdec, hg, hf]
          · by_cases hv : verifyPassword u.passwordHash p.password = true
            · refine ⟨[], ?_⟩
              simp [signIn, isLocked_noFaults, hdec, hg, hf, hv]
            · refine ⟨[], ?_⟩
              simp [signIn, isLocked_noFaults, hdec, hg, hf, hv]
  · intro h pw
    simp [signIn, resolveIdentifier_password, isLocked_noFaults, h]
  · intro h
    have hdec : ¬ (countRecentAttempts
        (db.attempts ++ [{ username := resolveIdentifier opt p, created := now }])
        (resolveIdentifier opt p) (attemptWindowStart opt.authLockDuration now) : Int)
          > opt.authAttempts := by omega
    cases hg : getByUsername db.users db.orgs (resolveIdentifier opt p) with
    | none => simp [signIn, isLocked_noFaults, hdec, hg]
    | some v =>
      cases v with
      | mk u orgS =>
        by_cases hf : (u.suspended || orgS || u.passive) = true
        · simp [signIn, isLocked_noFaults, hdec, hg, hf]
        · by_cases hv : verifyPassword u.passwordHash p.password = true
          · simp [signIn, isLocked_noFaults, hdec, hg, hf, hv]
          · simp [signIn, isLocked_noFaults, hdec, hg, hf, hv]

/-- C1 witness: with a maximum of one attempt, a second attempt inside the
window is rejected with RateLimitExceeded, and an attempt whose window
count is within the maximum is not rate-limited. -/
theorem signIn_sliding_window_witness :
    ((countRecentAttempts
        ([({ username := "bob", created := 500 } : AttemptRow)]
          ++ [{ username := "bob", created := 600 }]) "bob" (attemptWindowStart 300 600) : Int) > 1
      ∧ (signIn optOne noFaults dbOneAttempt { email := "", username := "bob", password := "pw" } 600).1
          = .error .rateLimitExceeded)
    ∧ ((countRecentAttempts
        ([] ++ [({ username := "bob", created := 600 } : AttemptRow)]) "bob"
          (attemptWindowStart 300 600) : Int) ≤ 1
      ∧ (signIn optOne noFaults (mkDb [] []) { email := "", username := "bob", password := "pw" } 600).1
          ≠ .error .rateLimitExceeded) := by
  constructor
  · exact ⟨by decide,
      (signIn_sliding_window optOne dbOneAttempt { email := "", username := "bob", password := "pw" } 600).2.1
        (by decide) "pw"⟩
  · exact ⟨by decide,
      (signIn_sliding_window optOne (mkDb [] []) { email := "", username := "bob", password := "pw" } 600).2.2
        (by decide)⟩

/-- A store holding a single passive account. -/
def dbPassive : Db :=
  mkDb [mkUser 1 "p@x.com" "p@x.com" (hashPassword "irrelevant") false true false] []

/-- C4: gated accounts never authenticate.  If the sign-in lookup resolves
the identifier to an account that is passive, suspended, or whose
organization is suspended, then: when the attempt is not rate-limited the
caller gets the generic NotAuthenticated error, whatever password is
supplied; and under every fault pattern the sign-in never succeeds. -/
theorem signIn_passive_suspended_notAuth (opt : UserOpts) (db : Db) (uname pw : String)
    (now : Nat) (u : UserRow) (orgS : Bool)
    (hfind : getByUsername db.users db.orgs uname = some (u, orgS))
    (hflag : (u.suspended || orgS || u.passive) = true) :
    ((countRecentAttempts (db.attempts ++ [{ username := uname, created := now }]) uname
        (attemptWindowStart opt.authLockDuration now) : Int) ≤ opt.authAttempts →
      (signIn opt noFaults db { email := "", username := uname, password := pw } now).1
        = .error .notAuth)
    ∧ ∀ (f : StoreFaults) (res : UserRow × Bool),
        (signIn opt f db { email := "", username := uname, password := pw } now).1 ≠ .ok res := by
  have hid : resolveIdentifier opt { email := "", username := uname, password := pw } = uname := rfl
  constructor
  · intro h
    have hdec : ¬ (countRecentAttempts (db.attempts ++ [{ username := uname, created := now }])
        uname (attemptWindowStart opt.authLockDuration now) : Int) > opt.authAttempts := by omega
    simp [signIn, hid, isLocked_noFaults, hdec, hfind, hflag]
  · intro f res
    cases hl : (isLocked opt f db.attempts uname now).1
    · simp [signIn, hid, hl, hfind, hflag]
    · simp [signIn, hid, hl]

/-- C4 witness: a concrete passive account fails sign-in with
NotAuthenticated on a healthy unlocked store, and never signs in under a
store fault either. -/
theorem signIn_passive_suspended_notAuth_witness :
    (signIn optStd noFaults dbPassive { email := "", username := "p@x.com", password := "Whatever1!" } 0).1
        = .error .notAuth
    ∧ ∀ res : UserRow × Bool,
        (signIn optStd { attemptInsertFails := true, attemptCountFails := false } dbPassive
          { email := "", username := "p@x.com", password := "Whatever1!" } 0).1 ≠ .ok res := by
  have h := signIn_passive_suspended_notAuth optStd dbPassive "p@x.com" "Whatever1!" 0
    (mkUser 1 "p@x.com" "p@x.com" (hashPassword "irrelevant") false true false) false
    (by decide) (by decide)
  exact ⟨h.1 (by decide), fun res => h.2 { attemptInsertFails := true, attemptCountFails := false } res⟩

/-- The configuration produced by the constructor from a record that leaves
the lock duration, generator, policy and expiry unset. -/
def optDef : UserOpts := newUsers
  { authAttempts := 5, authLockDuration := 0, passGen := none,
    usernameIsEmail := none, resetTokenExpiry := 0 }

/-- A store with one healthy account and one active reset token created at
time zero. -/
def dbC6 : Db := mkDb [mkUser 1 "a@b.c" "a@b.c" (hashPassword "Oldpass1!") false false false]
  [{ userId := 1, email := "a@b.c", resetToken := "tk", created := 0, deleted := false }]

/-- The token-path change-password request for dbC6. -/
def pC6 : ChangePasswordParams where
  email := "a@b.c"
  existingPassword := ""
  newPassword := "Newpass1!"
  resetToken := "tk"

/-- C6: reset-token expiry boundary.  For a change-password on the token
path whose most recent active token matches the supplied value, the call
fails with TokenExpired exactly when now exceeds created plus the
configured expiry (the ResetTokenExpiry option times 1000, src/users.go
line 662), and otherwise — in particular one millisecond before the
boundary — it succeeds. -/
theorem changePassword_token_expiry (opt : UserOpts) (db : Db) (p : ChangePasswordParams)
    (now : Nat) (r : ResetRow)
    (hep : p.existingPassword = "") (htk : p.resetToken ≠ "")
    (hmr : mostRecentActiveReset db.resets p.email = some r)
    (hmatch : r.resetToken = p.resetToken) :
    ((changePassword opt noFaults db p now).1 = .error .tokenExpired
        ↔ (now : Int) > (r.created : Int) + opt.resetTokenExpiry * 1000)
    ∧ ((now : Int) ≤ (r.created : Int) + opt.resetTokenExpiry * 1000 →
        (changePassword opt noFaults db p now).1 = .ok ()) := by
  constructor
  · by_cases hexp : (now : Int) > (r.created : Int) + opt.resetTokenExpiry * 1000
    · simp [changePassword, hep, htk, hmr, hmatch, hexp]
    · simp [changePassword, hep, htk, hmr, hmatch, hexp]
  · intro h
    have hexp : ¬ (now : Int) > (r.created : Int) + opt.resetTokenExpiry * 1000 := by omega
    simp [changePassword, hep, htk, hmr, hmatch, hexp]

/-- C6 witness: under the constructor defaults (expiry left zero becomes
24*60*60*1000, times 1000 milliseconds at the comparison), change-password
succeeds one millisecond before the boundary and fails with TokenExpired
one millisecond past it. -/
theorem changePassword_token_expiry_witness :
    optDef.resetTokenExpiry = 24 * 60 * 60 * 1000
    ∧ (changePassword optDef noFaults dbC6 pC6 86399999999).1 = .ok ()
    ∧ (changePassword optDef noFaults dbC6 pC6 86400000001).1 = .error .tokenExpired := by
  refine ⟨by decide, ?_, ?_⟩
  · exact (changePassword_token_expiry optDef dbC6 pC6 86399999999
      { userId := 1, email := "a@b.c", resetToken := "tk", created := 0, deleted := false }
      (by decide) (by decide) (by decide) (by decide)).2 (by decide)
  · exact (changePassword_token_expiry optDef dbC6 pC6 86400000001
      { userId := 1, email := "a@b.c", resetToken := "tk", created := 0, deleted := false }
      (by decide) (by decide) (by decide) (by decide)).1.mpr (by decide)

/-- C7: new-password strength.  For a change-password request that passes
the structural checks (well-formed non-empty email, a proof-of-ownership
field present, non-empty new password), the workflow rejects the request
with PasswordInvalid, leaving the store untouched, exactly when the new
password fails the strength rule; when the rule holds, validation passes
and the request reaches the engine. -/
theorem changePassword_strength (isEmail : String → Bool) (opt : UserOpts) (f : StoreFaults)
    (db : Db) (p : ChangePasswordParams) (now : Nat)
    (h1 : p.email ≠ "") (h2 : isEmail p.email = true)
    (h3 : ¬(p.existingPassword = "" ∧ p.resetToken = ""))
    (h4 : p.newPassword ≠ "") :
    (ValidatePassword p.newPassword = false →
      changePasswordChecked isEmail opt f db p now = (.error .passwordInvalid, db))
    ∧ (ValidatePassword p.newPassword = true →
      changePasswordChecked isEmail opt f db p now = changePassword opt f db p now) := by
  constructor
  · intro hv
    simp [changePasswordChecked, changePasswordValidate, h1, h2, h3, h4, hv]
  · intro hv
    simp [changePasswordChecked, changePasswordValidate, h1, h2, h3, h4, hv]

/-- C7 witness: the four spec vectors for the strength rule, and a concrete
weak request rejected with PasswordInvalid without touching the store. -/
theorem changePassword_strength_witness :
    ValidatePassword "Abcdef1!" = true
    ∧ ValidatePassword "abcdefgh" = false
    ∧ ValidatePassword "aaaaaaaaaaaaaaa" = true
    ∧ ValidatePassword "aaaaaaaaaaaaaa" = false
    ∧ changePasswordChecked (fun s => s == "a@b.c") optStd noFaults dbC6
        { email := "a@b.c", existingPassword := "", newPassword := "abcdefgh", resetToken := "tk" } 0
      = (.error .passwordInvalid, dbC6) := by
  refine ⟨by decide, by decide, by decide, by decide, ?_⟩
  exact (changePassword_strength (fun s => s == "a@b.c") optStd noFaults dbC6
    { email := "a@b.c", existingPassword := "", newPassword := "abcdefgh", resetToken := "tk" } 0
    (by decide) (by decide) (by decide) (by decide)).1 (by decide)

/-- A store whose account has a username different from its stored email and
whose email already holds one active reset token. -/
def dbC5 : Db := mkDb [mkUser 1 "bob@corp.com" "e@b.com" (hashPassword "Secret1!") false false false]
  [{ userId := 1, email := "e@b.com", resetToken := "t1", created := 5, deleted := false }]

/-- The same store but with the username equal to the stored email. -/
def dbC5email : Db := mkDb [mkUser 1 "e@b.com" "e@b.com" (hashPassword "Secret1!") false false false]
  [{ userId := 1, email := "e@b.com", resetToken := "t1", created := 5, deleted := false }]

/-- C5 counterexample: issuing a reset token can leave two active tokens for
one email.  In dbC5 the account has username bob@corp.com and stored email
e@b.com, and e@b.com already holds one active token; Users.ResetPassword
called with the username revokes rows keyed on the supplied identifier but
inserts the new token under the stored email, so afterwards e@b.com has two
active tokens. -/
theorem resetPassword_two_active_cex :
    (resetPassword dbC5 "bob@corp.com" 10 "t2").1 = .ok "t2"
    ∧ (dbC5.resets.filter fun r => r.email == "e@b.com" && !r.deleted).length = 1
    ∧ ((resetPassword dbC5 "bob@corp.com" 10 "t2").2.resets.filter
        fun r => r.email == "e@b.com" && !r.deleted).length = 2 := by
  decide

/-- After the blanket revoke of ResetPassword no row for the identifier is
still active. -/
theorem filter_active_after_revoke (resets : List ResetRow) (email : String) :
    ((resets.map fun r => if r.email == email then { r with deleted := true } else r).filter
      fun r => r.email == email && !r.deleted) = [] := by
  rw [List.filter_eq_nil_iff]
  intro a ha
  obtain ⟨r, hr, rfl⟩ := List.mem_map.mp ha
  by_cases h : (r.email == email) = true
  · simp [h]
  · simp [h]

/-- C5 (amended): when the supplied identifier is the account stored email —
the flow the spec describes — issuing a reset token succeeds, the same
transaction revokes every previously active token for that email and
inserts the new one, so exactly one active token for the email remains; a
change-password that supplies any superseded (different) token then fails
with InvalidResetToken. -/
theorem resetPassword_single_active (opt : UserOpts) (db : Db) (email : String) (now : Nat)
    (tok : String) (u : UserRow) (orgS : Bool)
    (hfind : getByUsername db.users db.orgs email = some (u, orgS))
    (hpass : u.passive = false) (hemail : u.email = email) :
    (resetPassword db email now tok).1 = .ok tok
    ∧ ((resetPassword db email now tok).2.resets.filter fun r => r.email == email && !r.deleted)
        = [{ userId := u.id, email := email, resetToken := tok, created := now, deleted := false }]
    ∧ ∀ (old npw : String) (now2 : Nat), old ≠ tok → old ≠ "" →
        (changePassword opt noFaults (resetPassword db email now tok).2
          { email := email, existingPassword := "", newPassword := npw, resetToken := old } now2).1
          = .error .invalidResetToken := by
  have hres : resetPassword db email now tok
      = (.ok tok, { db with resets :=
          (db.resets.map fun r => if r.email == email then { r with deleted := true } else r)
          ++ [{ userId := u.id, email := u.email, resetToken := tok, created := now,
                deleted := false }] }) := by
    simp [resetPassword, hfind, hpass]
  have hfilter : ((resetPassword db email now tok).2.resets.filter
      fun r => r.email == email && !r.deleted)
      = [{ userId := u.id, email := email, resetToken := tok, created := now, deleted := false }] := by
    rw [hres]
    dsimp only
    rw [List.filter_append, filter_active_after_revoke]
    simp [hemail]
  refine ⟨by rw [hres], hfilter, ?_⟩
  intro old npw now2 hne hne2
  have hmr : mostRecentActiveReset (resetPassword db email now tok).2.resets email
      = some { userId := u.id, email := email, resetToken := tok, created := now,
               deleted := false } := by
    unfold mostRecentActiveReset
    rw [hfilter]
    rfl
  have hnt : tok ≠ old := Ne.symm hne
  simp [changePassword, hne2, hmr, hnt]

/-- C5 witness: with the identifier equal to the stored email, the second
issued token is the single active one and the superseded first token is
rejected with InvalidResetToken. -/
theorem resetPassword_single_active_witness :
    (resetPassword dbC5email "e@b.com" 10 "t2").1 = .ok "t2"
    ∧ ((resetPassword dbC5email "e@b.com" 10 "t2").2.resets.filter
        fun r => r.email == "e@b.com" && !r.deleted)
      = [{ userId := 1, email := "e@b.com", resetToken := "t2", created := 10, deleted := false }]
    ∧ (changePassword optStd noFaults (resetPassword dbC5email "e@b.com" 10 "t2").2
        { email := "e@b.com", existingPassword := "", newPassword := "Newpass1!",
          resetToken := "t1" } 20).1 = .error .invalidResetToken := by
  have h := resetPassword_single_active optStd dbC5email "e@b.com" 10 "t2"
    (mkUser 1 "e@b.com" "e@b.com" (hashPassword "Secret1!") false false false) false
    (by decide) (by decide) (by decide)
  exact ⟨h.1, h.2.1, h.2.2 "t1" "Newpass1!" 20 (by decide) (by decide)⟩

/-- Appending one string keeps a case-insensitively distinct list distinct
when it clashes with none of the existing entries. -/
theorem ciDistinct_append (xs : List String) (y : String) (h1 : ciDistinct xs = true)
    (h2 : ∀ x ∈ xs, strCiEq x y = false) : ciDistinct (xs ++ [y]) = true := by
  induction xs with
  | nil => rfl
  | cons x t ih =>
    rw [List.cons_append]
    unfold ciDistinct at h1 ⊢
    simp only [Bool.and_eq_true] at h1 ⊢
    obtain ⟨ha, hd⟩ := h1
    refine ⟨?_, ih hd fun z hz => h2 z (List.mem_cons_of_mem x hz)⟩
    rw [List.all_append]
    simp only [Bool.and_eq_true]
    refine ⟨ha, ?_⟩
    simp [h2 x (List.mem_cons_self x t)]

/-- When the uniqueness scan reports no conflict, no row at all — deleted or
not — has a case-insensitively equal email, because the email arm of the
scan predicate carries no deleted guard and agrees with the comparison
applied to the fetched row. -/
theorem usersExists_false_email (users : List UserRow) (pr : ExistsParams)
    (h : (usersExists users pr).1 = false) :
    ∀ w ∈ users, strCiEq w.email pr.email = false := by
  intro w hw
  unfold usersExists at h
  cases hf : users.find? (existsMatch pr) with
  | none =>
    have hall := List.find?_eq_none.mp hf
    cases hemv : strCiEq w.email pr.email
    · rfl
    · exact absurd (by simp [existsMatch, sqlStrEq, hemv]) (hall w hw)
  | some a =>
    rw [hf] at h
    exfalso
    have hpa := List.find?_some hf
    by_cases h1 : strCiEq a.email pr.email = true
    · simp [h1] at h
    · by_cases h2 : strCiEq a.username pr.username = true
      · simp [h1, h2] at h
      · have hor : (!a.deleted && sqlStrEq a.username pr.username) = true
            ∨ sqlStrEq a.email pr.email = true := by
          have hm := hpa
          simp only [existsMatch, Bool.or_eq_true] at hm
          exact hm
        rcases hor with hl | hr
        · simp only [Bool.and_eq_true] at hl
          exact h2 (by simpa [sqlStrEq] using hl.2)
        · exact h1 (by simpa [sqlStrEq] using hr)

/-- ResetPassword never touches the users table. -/
theorem resetPassword_users (db : Db) (email : String) (now : Nat) (tok : String) :
    (resetPassword db email now tok).2.users = db.users := by
  unfold resetPassword
  cases h : getByUsername db.users db.orgs email with
  | none => rfl
  | some v =>
    cases v with
    | mk u orgS => cases hp : u.passive <;> simp [hp]

/-- A successful insert tail appends exactly one row, carrying the effective
email and not deleted, to the users table. -/
theorem signUpInsert_shape (db : Db) (q : SignUpParams) (env : SignUpEnv)
    (res : UserRow × String) (db2 : Db)
    (hok : signUpInsert db q env = (.ok res, db2)) :
    db2.users = db.users ++ [res.1] ∧ res.1.email = q.email ∧ res.1.deleted = false := by
  unfold signUpInsert at hok
  by_cases hgp : (q.password == "") = true
  · rw [hgp] at hok
    simp only [Bool.not_true, Bool.false_eq_true, if_false, if_true] at hok
    by_cases hpv : q.passive = true
    · rw [hpv] at hok
      simp only [Bool.not_true, Bool.false_eq_true, if_false, Prod.mk.injEq] at hok
      obtain ⟨h1, h2⟩ := hok
      subst h2
      simp only [Except.ok.injEq] at h1
      rw [← h1]
      exact ⟨rfl, rfl, rfl⟩
    · have hpv2 : q.passive = false := by
        revert hpv
        cases q.passive <;> simp
      rw [hpv2] at hok
      simp only [Bool.not_false, if_true] at hok
      split at hok
      · next tok db3 heq =>
        simp only [Prod.mk.injEq, Except.ok.injEq] at hok
        obtain ⟨h1, h2⟩ := hok
        subst h2
        have hu := congrArg (fun x => x.2.users) heq
        dsimp only at hu
        rw [resetPassword_users] at hu
        dsimp only at hu
        rw [← h1]
        exact ⟨hu.symm, rfl, rfl⟩
      · next e db3 heq =>
        simp at hok
  · have hgp2 : (q.password == "") = false := by
      revert hgp
      cases q.password == "" <;> simp
    rw [hgp2] at hok
    simp only [Bool.not_false, Bool.false_eq_true, if_false, if_true, Prod.mk.injEq] at hok
    obtain ⟨h1, h2⟩ := hok
    subst h2
    simp only [Except.ok.injEq] at h1
    rw [← h1]
    exact ⟨rfl, rfl, rfl⟩

/-- Appending a non-deleted row whose email clashes with no existing row
preserves the case-insensitive email uniqueness invariant. -/
theorem ciUnique_insert (users : List UserRow) (u : UserRow) (hdel : u.deleted = false)
    (hinv : ciUniqueColumn (fun x => x.email) users = true)
    (hnew : ∀ w ∈ users, strCiEq w.email u.email = false) :
    ciUniqueColumn (fun x => x.email) (users ++ [u]) = true := by
  unfold ciUniqueColumn at hinv ⊢
  rw [List.filter_append, List.map_append]
  have hfu : List.filter (fun x => !x.deleted) [u] = [u] := by simp [hdel]
  rw [hfu]
  simp only [List.map_cons, List.map_nil]
  apply ciDistinct_append _ _ hinv
  intro x hx
  obtain ⟨w, hw, rfl⟩ := List.mem_map.mp hx
  exact hnew w (List.mem_filter.mp hw).1

/-- A successful sign-up on a non-empty requested email means the uniqueness
scan saw no conflict, and exactly one row was appended to the users table,
carrying the requested email and not deleted. -/
theorem signUp_ok_shape (opt : UserOpts) (db : Db) (p : SignUpParams) (env : SignUpEnv)
    (res : UserRow × String) (db2 : Db) (hmail : p.email ≠ "")
    (hok : signUp opt db p env = (.ok res, db2)) :
    (usersExists db.users { email := p.email, username := p.username }).1 = false
    ∧ db2.users = db.users ++ [res.1]
    ∧ res.1.email = p.email
    ∧ res.1.deleted = false := by
  have hbe : (p.email == "") = false := beq_eq_false_iff_ne.mpr hmail
  unfold signUp at hok
  rw [hbe] at hok
  simp only [Bool.and_false, Bool.false_eq_true, if_false] at hok
  by_cases hex : (usersExists db.users { email := p.email, username := p.username }).1 = true
  · rw [hex] at hok
    simp at hok
  · have hex2 : (usersExists db.users { email := p.email, username := p.username }).1 = false := by
      revert hex
      cases (usersExists db.users { email := p.email, username := p.username }).1 <;> simp
    rw [hex2] at hok
    simp only [Bool.false_eq_true, if_false] at hok
    refine ⟨hex2, ?_⟩
    by_cases hb : (opt.usernameIsEmail.getD true || (p.username == "")) = true
    · rw [hb] at hok
      simp only [eq_self_iff_true, if_true] at hok
      have h := signUpInsert_shape db _ env res db2 hok
      exact ⟨h.1, h.2.1, h.2.2⟩
    · have hb2 : (opt.usernameIsEmail.getD true || (p.username == "")) = false := by
        revert hb
        cases opt.usernameIsEmail.getD true || (p.username == "") <;> simp
      rw [hb2] at hok
      simp only [Bool.false_eq_true, if_false] at hok
      exact signUpInsert_shape db p env res db2 hok

/-- A store satisfying the uniqueness invariant: one non-deleted account
whose username is an email-shaped string and whose email differs. -/
def dbC3 : Db := mkDb [mkUser 1 "x@y.z" "a@b.c" (hashPassword "Secret1!") false false false] []

/-- Sign-up request whose email equals the existing account username. -/
def pC3 : SignUpParams where
  username := "someone"
  inviteCode := ""
  password := "Abcdef1!"
  email := "x@y.z"
  firstName := ""
  lastName := ""
  phone := ""
  orgId := 0
  role := 0
  passive := false

/-- External draws for the dbC3 sign-up. -/
def envC3 : SignUpEnv where
  now := 100
  uid := "uid2"
  emailUid := "eu"
  genPassword := "gp"
  genResetToken := "tok"

/-- A store holding one non-deleted account whose email differs from a
request only by letter case. -/
def dbDupEmail : Db := mkDb [mkUser 1 "other" "A@B.C" (hashPassword "Secret1!") false false false] []

/-- Sign-up request colliding case-insensitively with dbDupEmail. -/
def pDup : SignUpParams where
  username := "someone"
  inviteCode := ""
  password := "Abcdef1!"
  email := "a@b.c"
  firstName := ""
  lastName := ""
  phone := ""
  orgId := 0
  role := 0
  passive := false

/-- C3 counterexample: sign-up can violate the case-insensitive username
uniqueness invariant.  dbC3 satisfies the invariant; the request carries a
fresh username and a fresh email, so the uniqueness scan passes, but the
usernameIsEmail policy then rewrites the username to the email — after the
check — and the inserted username collides with the existing account
username, leaving two non-deleted accounts with equal usernames. -/
theorem signUp_username_uniqueness_cex :
    ciUniqueColumn (fun u => u.username) dbC3.users = true
    ∧ ((signUp optStd dbC3 pC3 envC3).1.map fun r => (r.1.username, r.2)) = .ok ("x@y.z", "")
    ∧ ciUniqueColumn (fun u => u.username) (signUp optStd dbC3 pC3 envC3).2.users = false := by
  decide

/-- C3 (amended): the error side of the claim holds — a case-insensitive
email conflict with a non-deleted account yields EmailTaken with nothing
inserted (when no username conflict intervenes in the scan), a
case-insensitive username conflict with a non-deleted account yields
UsernameTaken with nothing inserted (when no row matches by email) — and
sign-up preserves case-insensitive email uniqueness across non-deleted
accounts; username uniqueness, however, is not guaranteed (see the
counterexample), because the policy rewrite username := email runs after
the uniqueness check. -/
theorem signUp_uniqueness (opt : UserOpts) (db : Db) (p : SignUpParams) (env : SignUpEnv)
    (hmail : p.email ≠ "") :
    ((∃ w ∈ db.users, w.deleted = false ∧ strCiEq w.email p.email = true) →
      (∀ w ∈ db.users, ¬(w.deleted = false ∧ strCiEq w.username p.username = true)) →
      signUp opt db p env = (.error .emailTaken, db))
    ∧ ((∃ w ∈ db.users, w.deleted = false ∧ strCiEq w.username p.username = true) →
      (∀ w ∈ db.users, strCiEq w.email p.email = false) →
      signUp opt db p env = (.error .usernameTaken, db))
    ∧ (ciUniqueColumn (fun u => u.email) db.users = true →
      ∀ (res : UserRow × String) (db2 : Db), signUp opt db p env = (.ok res, db2) →
        ciUniqueColumn (fun u => u.email) db2.users = true) := by
  have hbe : (p.email == "") = false := beq_eq_false_iff_ne.mpr hmail
  refine ⟨?_, ?_, ?_⟩
  · rintro ⟨w, hw, hwdel, hwem⟩ hA2
    have hex : ∃ x ∈ db.users, existsMatch { email := p.email, username := p.username } x = true :=
      ⟨w, hw, by simp [existsMatch, sqlStrEq, hwem]⟩
    obtain ⟨a, ha⟩ := Option.isSome_iff_exists.mp (List.find?_isSome.mpr hex)
    have hpa := List.find?_some ha
    have hma := List.mem_of_find?_eq_some ha
    have haem : strCiEq a.email p.email = true := by
      have hm := hpa
      simp only [existsMatch, Bool.or_eq_true, Bool.and_eq_true] at hm
      rcases hm with ⟨hdel, hun⟩ | hr
      · exact absurd ⟨by simpa using hdel, by simpa [sqlStrEq] using hun⟩ (hA2 a hma)
      · simpa [sqlStrEq] using hr
    have hue : usersExists db.users { email := p.email, username := p.username }
        = (true, some .emailTaken) := by
      unfold usersExists
      rw [ha]
      simp [haem]
    unfold signUp
    rw [hbe]
    simp only [Bool.and_false, Bool.false_eq_true, if_false]
    rw [hue]
    simp
  · rintro ⟨w, hw, hwdel, hwun⟩ hB2
    have hex : ∃ x ∈ db.users, existsMatch { email := p.email, username := p.username } x = true :=
      ⟨w, hw, by simp [existsMatch, sqlStrEq, hwdel, hwun]⟩
    obtain ⟨a, ha⟩ := Option.isSome_iff_exists.mp (List.find?_isSome.mpr hex)
    have hpa := List.find?_some ha
    have hma := List.mem_of_find?_eq_some ha
    have haem : strCiEq a.email p.email = false := hB2 a hma
    have haun : strCiEq a.username p.username = true := by
      have hm := hpa
      simp only [existsMatch, Bool.or_eq_true, Bool.and_eq_true] at hm
      rcases hm with ⟨hdel, hun⟩ | hr
      · simpa [sqlStrEq] using hun
      · exact absurd (by simpa [sqlStrEq] using hr) (by simp [haem])
    have hue : usersExists db.users { email := p.email, username := p.username }
        = (true, some .usernameTaken) := by
      unfold usersExists
      rw [ha]
      simp [haem, haun]
    unfold signUp
    rw [hbe]
    simp only [Bool.and_false, Bool.false_eq_true, if_false]
    rw [hue]
    simp
  · intro hinv res db2 hok
    obtain ⟨hex2, husers, hemail, hdel⟩ := signUp_ok_shape opt db p env res db2 hmail hok
    have hnoem := usersExists_false_email db.users { email := p.email, username := p.username } hex2
    rw [husers]
    apply ciUnique_insert _ _ hdel hinv
    intro w hw
    rw [hemail]
    exact hnoem w hw

/-- C3 witness: the amended theorem at concrete inputs — a case-insensitive
email duplicate is rejected with EmailTaken and the store is unchanged. -/
theorem signUp_uniqueness_witness :
    signUp optStd dbDupEmail pDup envC3 = (.error .emailTaken, dbDupEmail) := by
  exact (signUp_uniqueness optStd dbDupEmail pDup envC3 (by decide)).1 (by decide) (by decide)

end Gus
